import Mathlib

/-!
# Financial sentiment dashboard backend: a shallow embedding

This file embeds the core pipeline of the backend
(`app/config.py`, `app/news_fetcher.py`, `app/sentiment_analyzer.py`,
`app/models.py`, `app/main.py`) as executable Lean definitions and proves
properties of the fetch-cache-classify-aggregate pipeline.

Modelling conventions:
* Python floats are modelled as rationals (`ℚ`); all number comparisons in
  the source are exact threshold comparisons, which `ℚ` reproduces.
* Python exceptions are modelled as `Except PyErr` results, where `PyErr`
  records the exception class and its message.
* Python dicts used as the module-level caches are modelled as
  insertion-ordered association lists with dict update semantics.
* `datetime` values are modelled as an integer sort key: the timestamp
  format YYYYMMDDTHHMMSS is parsed to the integer YYYYMMDDHHMMSS, whose
  numeric order agrees with chronological order.
* The network and the transformer model are external effects; they enter as
  explicit inputs (`NetOutcome`, classifier oracles), and the number of
  provider / classifier invocations is returned alongside results so that
  "the provider is called exactly once" style statements are expressible.
-/

/-- Python exception classes raised by the backend, with their message.
`validate_ticker`, API-level errors and rate limiting all raise `ValueError`;
network failures raise `ConnectionError`; deadline overruns `TimeoutError`;
a direct `_cache[key]` access on a missing key would raise `KeyError`.
`RuntimeError` is raised by the sentiment analyzer wrappers. -/
inductive PyErr where
  | valueError (msg : String)
  | connectionError (msg : String)
  | timeoutError (msg : String)
  | keyError (msg : String)
  | runtimeError (msg : String)
deriving DecidableEq, Repr

/-- The exception class alone, without the message: what a Python caller can
branch on with `except ValueError` etc. -/
inductive PyErrKind where
  | valueErrorK
  | connectionErrorK
  | timeoutErrorK
  | keyErrorK
  | runtimeErrorK
deriving DecidableEq, Repr

def PyErr.kind : PyErr → PyErrKind
  | .valueError _ => .valueErrorK
  | .connectionError _ => .connectionErrorK
  | .timeoutError _ => .timeoutErrorK
  | .keyError _ => .keyErrorK
  | .runtimeError _ => .runtimeErrorK

/-- `str.upper()` restricted to ASCII case mapping (all strings the backend
handles are ASCII ticker symbols and labels): uppercase every character. -/
def pyUpper (s : String) : String := ⟨s.data.map Char.toUpper⟩

/-- `str.lower()` restricted to ASCII case mapping: lowercase every
character. -/
def pyLower (s : String) : String := ⟨s.data.map Char.toLower⟩

/-- `str.strip()` on a character list: drop whitespace from both ends. -/
def stripChars (l : List Char) : List Char :=
  ((l.dropWhile Char.isWhitespace).reverse.dropWhile Char.isWhitespace).reverse

/-- `str.strip()`. -/
def pyStrip (s : String) : String := ⟨stripChars s.data⟩

/-- Round a rational to the nearest integer, ties to even
(the rounding used by Python's builtin `round`). -/
def roundHalfToEven (q : ℚ) : ℤ :=
  let f := ⌊q⌋
  let r := q - (f : ℚ)
  if r < 1/2 then f
  else if 1/2 < r then f + 1
  else if f % 2 = 0 then f else f + 1

/-- Python's `round(x, ndigits)` modelled on exact rationals
(decimal round-half-to-even). -/
def pyRound (q : ℚ) (ndigits : ℕ) : ℚ :=
  (roundHalfToEven (q * ((10 : ℚ) ^ ndigits))) / ((10 : ℚ) ^ ndigits)

/-- Lookup in a Python dict modelled as an insertion-ordered assoc list. -/
def dictGet? {α : Type} (k : String) : List (String × α) → Option α
  | [] => none
  | (k', v) :: rest => if k' = k then some v else dictGet? k rest

/-- `d[k] = v` on a Python dict modelled as an insertion-ordered assoc list:
replace in place when the key exists, append otherwise. -/
def dictInsert {α : Type} (k : String) (v : α) : List (String × α) → List (String × α)
  | [] => [(k, v)]
  | (k', v') :: rest => if k' = k then (k', v) :: rest else (k', v') :: dictInsert k v rest

/-- The configuration constants of `app/config.py` that the pipeline reads.
Defaults are the literal values of the `Settings` class. -/
structure Settings where
  CACHE_TTL : ℚ := 3600
  MAX_CACHE_SIZE : ℕ := 100
  MIN_RELEVANCE_SCORE : ℚ := 2/5
  MAX_TEXT_LENGTH : ℕ := 512
  ALLOWED_TICKERS : List String := ["AAPL"]

def defaultSettings : Settings := {}

/-- 1 to 5 characters, each an ASCII uppercase letter. -/
def matchesUpper1to5 (l : List Char) : Bool :=
  decide (1 ≤ l.length) && decide (l.length ≤ 5) && l.all (fun c => 'A' ≤ c && c ≤ 'Z')

/-- `re.match` of the anchored pattern `^[A-Z]` followed by a 1-to-5
repetition bound and `$`, as applied in `validate_ticker`. In Python, `$`
also matches just before a single trailing newline, hence the second
disjunct. -/
def reMatchTickerPattern (s : String) : Bool :=
  matchesUpper1to5 s.data ||
    (s.data.getLast? = some '\n' && matchesUpper1to5 s.data.dropLast)

/-- `news_fetcher.validate_ticker`: empty check, then the regex on the
uppercased ticker, then allow-list membership of the uppercased ticker.
Returns `True` or raises `ValueError`. -/
def validate_ticker (s : Settings) (ticker : String) : Except PyErr Bool :=
  if ticker = "" then .error (.valueError "Ticker cannot be empty")
  else if ¬ reMatchTickerPattern (pyUpper ticker) then
    .error (.valueError ("Invalid ticker symbol: " ++ ticker))
  else if pyUpper ticker ∈ s.ALLOWED_TICKERS then .ok true
  else .error (.valueError ("Ticker " ++ ticker ++ " is not in allowed list"))

/-- `news_fetcher._get_cache_key`. -/
def get_cache_key (ticker : String) : String := "news_" ++ pyUpper ticker

def charDigit? (c : Char) : Option ℕ :=
  if '0' ≤ c && c ≤ '9' then some (c.toNat - 48) else none

def twoDigits? (a b : Char) : Option ℕ := do
  let x ← charDigit? a
  let y ← charDigit? b
  pure (10 * x + y)

/-- Number of days in a month, with Gregorian leap years
(as validated by `datetime.strptime`). -/
def daysInMonth (y m : ℕ) : ℕ :=
  if m = 2 then
    if y % 4 = 0 && (y % 100 ≠ 0 || y % 400 = 0) then 29 else 28
  else if m = 4 || m = 6 || m = 9 || m = 11 then 30
  else 31

/-- `news_fetcher.parse_timestamp`: parse the compact provider format
YYYYMMDDTHHMMSS via `datetime.strptime`; on any parse failure, log and
return `datetime.now()` (the `now` argument here). The returned `datetime`
is modelled as the integer YYYYMMDDHHMMSS, which orders chronologically. -/
def parse_timestamp (timestamp_str : String) (now : ℤ) : ℤ :=
  match timestamp_str.data with
  | [y1, y2, y3, y4, mo1, mo2, d1, d2, t, h1, h2, mi1, mi2, s1, s2] =>
    if t = 'T' then
      match twoDigits? y1 y2, twoDigits? y3 y4, twoDigits? mo1 mo2, twoDigits? d1 d2,
            twoDigits? h1 h2, twoDigits? mi1 mi2, twoDigits? s1 s2 with
      | some yh, some yl, some mo, some d, some h, some mi, some sec =>
        let y := 100 * yh + yl
        if 1 ≤ y && 1 ≤ mo && mo ≤ 12 && 1 ≤ d && d ≤ daysInMonth y mo &&
            h ≤ 23 && mi ≤ 59 && sec ≤ 59 then
          ((((((y : ℤ) * 100 + mo) * 100 + d) * 100 + h) * 100 + mi) * 100 + sec)
        else now
      | _, _, _, _, _, _, _ => now
    else now
  | _ => now

section SortByKey

variable {α : Type} (key : α → ℤ)

/-- Insert `a` into a list sorted by `key` descending, after all elements
whose key is `≥ key a` (so that, used by `sortByKeyDesc`, ties keep their
original order, as Python's stable `list.sort(..., reverse=True)` does). -/
def insertByKeyDesc (a : α) : List α → List α
  | [] => [a]
  | b :: rest =>
    if key b < key a then a :: b :: rest else b :: insertByKeyDesc a rest

/-- Stable sort by `key`, descending: the model of
`news_items.sort(key=lambda x: x["time_published"], reverse=True)`. -/
def sortByKeyDesc (l : List α) : List α :=
  l.foldl (fun acc a => insertByKeyDesc key a acc) []

theorem insertByKeyDesc_perm (a : α) (l : List α) :
    (insertByKeyDesc key a l).Perm (a :: l) := by
  induction l with
  | nil => simp [insertByKeyDesc]
  | cons b rest ih =>
    simp only [insertByKeyDesc]
    split
    · exact List.Perm.refl _
    · exact (List.Perm.cons b ih).trans (List.Perm.swap a b rest)

theorem sortByKeyDesc_perm (l : List α) : (sortByKeyDesc key l).Perm l := by
  suffices h : ∀ acc : List α,
      (l.foldl (fun acc a => insertByKeyDesc key a acc) acc).Perm (l ++ acc) by
    simpa using h []
  induction l with
  | nil => intro acc; simp
  | cons a rest ih =>
    intro acc
    simp only [List.foldl_cons, List.cons_append]
    refine (ih (insertByKeyDesc key a acc)).trans ?_
    refine (List.Perm.append_left rest (insertByKeyDesc_perm key a acc)).trans ?_
    exact List.perm_middle

theorem insertByKeyDesc_pairwise (a : α) (l : List α)
    (h : l.Pairwise (fun x y => key y ≤ key x)) :
    (insertByKeyDesc key a l).Pairwise (fun x y => key y ≤ key x) := by
  induction l with
  | nil => simp [insertByKeyDesc]
  | cons b rest ih =>
    rcases List.pairwise_cons.1 h with ⟨hb, hrest⟩
    simp only [insertByKeyDesc]
    split
    · rename_i hlt
      refine List.pairwise_cons.2 ⟨?_, h⟩
      intro c hc
      rcases List.mem_cons.1 hc with hc | hc
      · subst hc; exact le_of_lt hlt
      · exact le_trans (hb c hc) (le_of_lt hlt)
    · rename_i hge
      refine List.pairwise_cons.2 ⟨?_, ih hrest⟩
      intro c hc
      have hc' : c ∈ a :: rest := (insertByKeyDesc_perm key a rest).mem_iff.1 hc
      rcases List.mem_cons.1 hc' with hc'' | hc''
      · subst hc''
        exact le_of_not_lt hge
      · exact hb c hc''

theorem sortByKeyDesc_pairwise (l : List α) :
    (sortByKeyDesc key l).Pairwise (fun x y => key y ≤ key x) := by
  suffices h : ∀ acc : List α, acc.Pairwise (fun x y => key y ≤ key x) →
      (l.foldl (fun acc a => insertByKeyDesc key a acc) acc).Pairwise
        (fun x y => key y ≤ key x) by
    exact h [] (List.Pairwise.nil)
  induction l with
  | nil => intro acc hacc; simpa using hacc
  | cons a rest ih =>
    intro acc hacc
    simp only [List.foldl_cons]
    exact ih _ (insertByKeyDesc_pairwise key a acc hacc)

end SortByKey

/-- One element of a feed entry's `ticker_sentiment` array, as the code
reads it with `.get`: every field may be absent. Numeric fields are the
already-parsed values of the provider's decimal strings. -/
structure TickerSentiment where
  ticker : Option String := none
  relevance_score : Option ℚ := none
  ticker_sentiment_score : Option ℚ := none
  ticker_sentiment_label : Option String := none
deriving DecidableEq, Repr

/-- One raw feed entry of the provider response, fields as the code reads
them with `.get` (absent fields allowed everywhere). -/
structure FeedEntry where
  title : Option String := none
  summary : Option String := none
  url : Option String := none
  source : Option String := none
  time_published : Option String := none
  ticker_sentiment : Option (List TickerSentiment) := none
deriving DecidableEq, Repr

/-- The JSON body of a provider response: the `Error Message` marker, the
rate-limit `Note` marker, and the `feed` array. -/
structure ApiBody where
  errorMessage : Option String := none
  note : Option String := none
  feed : Option (List FeedEntry) := none
deriving DecidableEq, Repr

/-- Outcome of the single `requests.get` call: an HTTP response with a
status code and body, a timeout, or a connection-level failure. -/
inductive NetOutcome where
  | response (status : ℕ) (body : ApiBody)
  | timeout (msg : String)
  | connectionFailure (msg : String)
deriving DecidableEq, Repr

/-- The dict `fetch_financial_news` builds per retained feed entry. -/
structure NewsItemD where
  title : String
  summary : String
  url : String
  source : String
  time_published : ℤ
  ticker : String
  relevance_score : ℚ
  sentiment_score : ℚ
  sentiment_label : String
deriving DecidableEq, Repr

/-- The two module-level dicts of `news_fetcher`: `_cache` and
`_cache_timestamps` (timestamps are `time.time()` values). -/
structure CacheState where
  cache : List (String × List NewsItemD) := []
  timestamps : List (String × ℚ) := []
deriving DecidableEq, Repr

def emptyCache : CacheState := {}

/-- `news_fetcher._is_cache_valid`: a timestamp exists for the key and its
age `wall - t` is `< CACHE_TTL`. -/
def is_cache_valid (s : Settings) (cs : CacheState) (wall : ℚ) (cache_key : String) : Bool :=
  match dictGet? cache_key cs.timestamps with
  | none => false
  | some t => decide (wall - t < s.CACHE_TTL)

/-- The inner loop over `item.get("ticker_sentiment", [])`: the first
sub-record whose `ticker` field equals the uppercased request ticker. -/
def findTickerSentiment (upperTicker : String) : List TickerSentiment → Option TickerSentiment
  | [] => none
  | ts :: rest =>
    if ts.ticker = some upperTicker then some ts else findTickerSentiment upperTicker rest

/-- The per-entry body of the feed loop in `fetch_financial_news`: locate
the matching ticker sub-record (skip the entry when there is none), read
its relevance (default 0), skip when below `min_relevance`, otherwise build
the news-item dict with the documented field defaults. -/
def processEntry (upperTicker : String) (min_relevance : ℚ) (nowStamp : ℤ)
    (item : FeedEntry) : Option NewsItemD :=
  match findTickerSentiment upperTicker (item.ticker_sentiment.getD []) with
  | none => none
  | some ts =>
    if ts.relevance_score.getD 0 < min_relevance then none
    else some
      { title := item.title.getD ""
        summary := item.summary.getD ""
        url := item.url.getD ""
        source := item.source.getD "Unknown"
        time_published := parse_timestamp (item.time_published.getD "") nowStamp
        ticker := upperTicker
        relevance_score := ts.relevance_score.getD 0
        sentiment_score := ts.ticker_sentiment_score.getD 0
        sentiment_label := ts.ticker_sentiment_label.getD "Neutral" }

instance {ε α : Type} [DecidableEq ε] [DecidableEq α] : DecidableEq (Except ε α) := fun x y =>
  match x, y with
  | .ok a, .ok b =>
    if h : a = b then isTrue (by rw [h]) else isFalse (by intro hc; cases hc; exact h rfl)
  | .error a, .error b =>
    if h : a = b then isTrue (by rw [h]) else isFalse (by intro hc; cases hc; exact h rfl)
  | .ok _, .error _ => isFalse (by intro hc; cases hc)
  | .error _, .ok _ => isFalse (by intro hc; cases hc)

/-- Result of one `fetch_financial_news` invocation: the returned value or
raised exception, the cache state after the call, and how many times the
external provider was contacted (0 or 1). -/
structure FetchOut where
  result : Except PyErr (List NewsItemD)
  state : CacheState
  providerCalls : ℕ
deriving DecidableEq, Repr

/-- The part of `news_fetcher.fetch_financial_news` after the cache miss:
the single provider request (`net` is its outcome) and response handling:
non-2xx status, the `Error Message` marker and the `Note` marker each raise
`ValueError`; an empty (or absent) feed returns `[]` without caching; a
non-empty feed is filtered per entry, sorted most-recent-first, cached
under the ticker's key with the current `time.time()`, and returned. -/
def fetch_from_provider (ticker : String) (min_rel : ℚ)
    (net : NetOutcome) (wall : ℚ) (nowStamp : ℤ) (cs : CacheState) : FetchOut :=
  match net with
  | .timeout _ => ⟨.error (.timeoutError "Request to Alpha Vantage API timed out"), cs, 1⟩
  | .connectionFailure m =>
    ⟨.error (.connectionError ("Failed to connect to Alpha Vantage API: " ++ m)), cs, 1⟩
  | .response status body =>
    if status ≠ 200 then
      ⟨.error (.valueError ("API Error: HTTP " ++ toString status)), cs, 1⟩
    else match body.errorMessage with
    | some m => ⟨.error (.valueError ("API Error: " ++ m)), cs, 1⟩
    | none =>
      match body.note with
      | some _ => ⟨.error (.valueError "Rate limit exceeded. Please try again later."), cs, 1⟩
      | none =>
        if body.feed.getD [] = [] then ⟨.ok [], cs, 1⟩
        else
          let sorted := sortByKeyDesc (fun x => x.time_published)
            ((body.feed.getD []).filterMap (processEntry (pyUpper ticker) min_rel nowStamp))
          ⟨.ok sorted,
            { cache := dictInsert (get_cache_key ticker) sorted cs.cache
              timestamps := dictInsert (get_cache_key ticker) wall cs.timestamps }, 1⟩

/-- `news_fetcher.fetch_financial_news`: validate, consult the response
cache (a live entry short-circuits without a network call), otherwise fall
through to `fetch_from_provider` with the defaulted relevance threshold.
Inputs beyond the Python parameters: `net` is the outcome the network would
deliver for the one `requests.get` this call may issue, `wall` is
`time.time()`, `nowStamp` is `datetime.now()` (as a timestamp sort key),
and `cs` is the state of the module-level caches when the call starts. -/
def fetch_financial_news (s : Settings) (ticker : String) (min_relevance : Option ℚ)
    (net : NetOutcome) (wall : ℚ) (nowStamp : ℤ) (cs : CacheState) : FetchOut :=
  match validate_ticker s ticker with
  | .error e => ⟨.error e, cs, 0⟩
  | .ok _ =>
    if is_cache_valid s cs wall (get_cache_key ticker) then
      match dictGet? (get_cache_key ticker) cs.cache with
      | some items => ⟨.ok items, cs, 0⟩
      | none => ⟨.error (.keyError (get_cache_key ticker)), cs, 0⟩
    else
      fetch_from_provider ticker (min_relevance.getD s.MIN_RELEVANCE_SCORE) net wall nowStamp cs

/-- `models.ConfidenceLevel`. -/
inductive ConfidenceLevel where
  | high
  | medium
  | low
deriving DecidableEq, Repr

/-- `sentiment_analyzer.get_confidence_level`. -/
def get_confidence_level (score : ℚ) : ConfidenceLevel :=
  if score > 4/5 then .high
  else if score > 3/5 then .medium
  else .low

/-- `models.SentimentResult.determine_confidence`, the always-on pydantic
validator that derives the confidence band from the score. -/
def determine_confidence (score : ℚ) : ConfidenceLevel :=
  if score > 4/5 then .high
  else if score > 3/5 then .medium
  else .low

/-- `sentiment_analyzer.normalize_label`: lowercase, then look up in the
fixed mapping table, defaulting to "neutral". -/
def normalize_label (label : String) : String :=
  let label_lower := pyLower label
  if label_lower = "positive" then "positive"
  else if label_lower = "bullish" then "positive"
  else if label_lower = "label_2" then "positive"
  else if label_lower = "negative" then "negative"
  else if label_lower = "bearish" then "negative"
  else if label_lower = "label_0" then "negative"
  else if label_lower = "neutral" then "neutral"
  else if label_lower = "label_1" then "neutral"
  else "neutral"

/-- What the underlying transformer pipeline returns per text: a raw label
string and a raw confidence score. -/
structure ClfOut where
  label : String
  score : ℚ
deriving DecidableEq, Repr

/-- The external single-text classification capability (`pipeline_model(text)[0]`),
as an oracle: its inference either yields a raw result or fails with a message.
Lazy initialization of the shared pipeline handle is a concurrency concern
outside this embedding; the oracle stands for the already-obtained handle. -/
abbrev Clf := String → Except String ClfOut

/-- The external batch classification capability (`pipeline_model(texts)`). -/
abbrev ClfBatch := List String → Except String (List ClfOut)

/-- The dict returned by `analyze_sentiment` (Python keys `label`, `score`,
`confidence`, and optionally `warning`). -/
structure SentimentResponse where
  label : String
  score : ℚ
  confidence : ConfidenceLevel
  warning : Option String := none
deriving DecidableEq, Repr

def lowConfidenceWarning : String :=
  "Low confidence prediction - results may be unreliable"

/-- Result of one `analyze_sentiment` call plus how many times the
underlying model was invoked (0 or 1). -/
structure AnalyzeOut where
  result : Except PyErr SentimentResponse
  modelCalls : ℕ
deriving DecidableEq, Repr

/-- The truncation applied before model submission: texts longer than
`MAX_TEXT_LENGTH * 4` characters are cut to that bound. -/
def truncateText (s : Settings) (t : String) : String :=
  if t.length > s.MAX_TEXT_LENGTH * 4 then t.take (s.MAX_TEXT_LENGTH * 4) else t

/-- `sentiment_analyzer.analyze_sentiment`: reject text that is empty after
stripping with `ValueError`, strip, truncate to `MAX_TEXT_LENGTH * 4`
characters, run the model, normalize the label, band the raw score, round
the reported score to 4 digits, and attach the warning exactly on the low
band. Model failures are re-raised as `RuntimeError`. -/
def analyze_sentiment (s : Settings) (clf : Clf) (text : String) : AnalyzeOut :=
  if pyStrip text = "" then ⟨.error (.valueError "Text cannot be empty"), 0⟩
  else
    match clf (truncateText s (pyStrip text)) with
    | .error e => ⟨.error (.runtimeError ("Sentiment analysis error: " ++ e)), 1⟩
    | .ok out =>
      let normalized_label := normalize_label out.label
      let confidence := get_confidence_level out.score
      ⟨.ok { label := normalized_label
             score := pyRound out.score 4
             confidence := confidence
             warning := if confidence = .low then some lowConfidenceWarning else none }, 1⟩

/-- `sentiment_analyzer.batch_analyze_sentiment`: empty list short-circuits
to `[]`; otherwise each text is truncated to `MAX_TEXT_LENGTH * 4`
characters and stripped (with no emptiness check on the elements), the
batch is submitted to the model in one call, and each raw result is
normalized, banded and rounded as in the single-text path. -/
def batch_analyze_sentiment (s : Settings) (clfB : ClfBatch) (texts : List String) :
    Except PyErr (List SentimentResponse) :=
  if texts = [] then .ok []
  else
    match clfB (texts.map (fun text => pyStrip (truncateText s text))) with
    | .error e => .error (.runtimeError ("Batch sentiment analysis error: " ++ e))
    | .ok raw => .ok (raw.map (fun out =>
        let confidence := get_confidence_level out.score
        { label := normalize_label out.label
          score := pyRound out.score 4
          confidence := confidence
          warning := if confidence = .low then some lowConfidenceWarning else none }))

/-- `models.SentimentResult` after pydantic validation. -/
structure SentimentResultD where
  label : String
  score : ℚ
  confidence : ConfidenceLevel
  warning : Option String
deriving DecidableEq, Repr

/-- The pydantic constructor `SentimentResult(**ml_sentiment)`: the score
must lie in [0,1] (field bounds, otherwise construction raises) and the
`confidence` argument is overridden by the always-on `determine_confidence`
validator recomputing the band from the (already rounded) score. The label
is one of the enum values whenever it comes from `normalize_label`. -/
def mkSentimentResult (r : SentimentResponse) : Option SentimentResultD :=
  if 0 ≤ r.score ∧ r.score ≤ 1 then
    some { label := r.label
           score := r.score
           confidence := determine_confidence r.score
           warning := r.warning }
  else none

/-- `models.NewsItemWithAnalysis`. -/
structure AnalyzedItemD where
  news : NewsItemD
  ml_sentiment : SentimentResultD
  text_analyzed : String
deriving DecidableEq, Repr

/-- The pydantic constructor `NewsItemWithAnalysis(**item, ml_sentiment=...,
text_analyzed=text[:200])`: the relevance score must lie in [0,1] and the
sentiment score in [-1,1] (field bounds), and the analyzed text is truncated
to its first 200 characters. `None` models a raised validation error. -/
def mkAnalyzedItem (item : NewsItemD) (ml : SentimentResponse) (text : String) :
    Option AnalyzedItemD :=
  match mkSentimentResult ml with
  | none => none
  | some sr =>
    if 0 ≤ item.relevance_score ∧ item.relevance_score ≤ 1 ∧
        -1 ≤ item.sentiment_score ∧ item.sentiment_score ≤ 1 then
      some { news := item, ml_sentiment := sr, text_analyzed := text.take 200 }
    else none

/-- `models.NewsFeedResponse` (the fields `get_news` fills). -/
structure NewsFeedResponseD where
  ticker : String
  total_items : ℕ
  items : List AnalyzedItemD
  cache_hit : Bool
deriving DecidableEq, Repr

/-- `fastapi.HTTPException` with status code and detail. -/
inductive HTTPException where
  | http (status : ℕ) (detail : String)
deriving DecidableEq, Repr

/-- Provider and classifier invocation counters for one endpoint call. -/
structure Counts where
  provider : ℕ
  classifier : ℕ
deriving DecidableEq, Repr

/-- The per-item loop of `main.get_news`: build "title. summary", classify
it, and append the analyzed item; any exception for a single item (empty
text, model failure, pydantic validation) is logged and the item skipped.
Also counts underlying model invocations. -/
def analyzeItemsLoop (s : Settings) (clf : Clf) : List NewsItemD → List AnalyzedItemD × ℕ
  | [] => ([], 0)
  | item :: rest =>
    let text_to_analyze := item.title ++ ". " ++ item.summary
    let a := analyze_sentiment s clf text_to_analyze
    let tail := analyzeItemsLoop s clf rest
    match a.result with
    | .error _ => (tail.1, a.modelCalls + tail.2)
    | .ok ml =>
      match mkAnalyzedItem item ml text_to_analyze with
      | none => (tail.1, a.modelCalls + tail.2)
      | some ai => (ai :: tail.1, a.modelCalls + tail.2)

/-- How `main.get_news` maps the exceptions of `fetch_financial_news` to
HTTP errors: `ValueError` to 400, `ConnectionError` to 503, `TimeoutError`
to 504, anything else to 500. -/
def mapFetchErr (e : PyErr) : HTTPException :=
  match e with
  | .valueError m => .http 400 m
  | .connectionError _ => .http 503 "Failed to connect to news API"
  | .timeoutError _ => .http 504 "Request timeout"
  | .keyError _ => .http 500 "Internal server error"
  | .runtimeError _ => .http 500 "Internal server error"

/-- Result of one `get_news` endpoint call: response or HTTP error, the
cache state afterwards, and the provider / classifier invocation counts. -/
structure GetNewsOut where
  result : Except HTTPException NewsFeedResponseD
  state : CacheState
  counts : Counts
deriving DecidableEq, Repr

/-- `main.get_news`: fetch (which consults the response cache), then
classify every returned item, and answer with `cache_hit` always set to
`False` (the literal value passed in the source). -/
def get_news (s : Settings) (ticker : String) (net : NetOutcome) (clf : Clf)
    (wall : ℚ) (nowStamp : ℤ) (cs : CacheState) : GetNewsOut :=
  let f := fetch_financial_news s ticker none net wall nowStamp cs
  match f.result with
  | .error e => ⟨.error (mapFetchErr e), f.state, ⟨f.providerCalls, 0⟩⟩
  | .ok news_items =>
    let analyzed := analyzeItemsLoop s clf news_items
    ⟨.ok { ticker := pyUpper ticker
           total_items := analyzed.1.length
           items := analyzed.1
           cache_hit := false },
      f.state, ⟨f.providerCalls, analyzed.2⟩⟩

/-- The percentage distribution dict of `models.SentimentStats`. -/
structure Distribution where
  positive : ℚ
  negative : ℚ
  neutral : ℚ
deriving DecidableEq, Repr

/-- `models.SentimentStats.calculate_distribution`, the always-on pydantic
validator: all-zero on zero items, otherwise `100 * count / total` rounded
to 2 decimal places per label. -/
def calculate_distribution (total_news positive_count negative_count neutral_count : ℕ) :
    Distribution :=
  if total_news = 0 then ⟨0, 0, 0⟩
  else
    ⟨pyRound ((positive_count : ℚ) / (total_news : ℚ) * 100) 2,
     pyRound ((negative_count : ℚ) / (total_news : ℚ) * 100) 2,
     pyRound ((neutral_count : ℚ) / (total_news : ℚ) * 100) 2⟩

/-- `models.SentimentStats`. -/
structure SentimentStatsD where
  total_news : ℕ
  positive_count : ℕ
  negative_count : ℕ
  neutral_count : ℕ
  avg_sentiment_score : ℚ
  avg_relevance_score : ℚ
  sentiment_distribution : Distribution
deriving DecidableEq, Repr

/-- The pydantic constructor `SentimentStats(...)`: whatever distribution
argument is passed (the source passes an empty dict), the always-on
validator recomputes it from the counts. -/
def mkSentimentStats (total pos neg neu : ℕ) (avgS avgR : ℚ) : SentimentStatsD :=
  { total_news := total
    positive_count := pos
    negative_count := neg
    neutral_count := neu
    avg_sentiment_score := avgS
    avg_relevance_score := avgR
    sentiment_distribution := calculate_distribution total pos neg neu }

/-- The aggregation body of `main.get_sentiment_stats` applied to the items
of a news response: the early all-zero return on no items, else label
counts, averages rounded to 4 digits, and the recomputed distribution. -/
def aggregate_stats (items : List AnalyzedItemD) : SentimentStatsD :=
  if items = [] then mkSentimentStats 0 0 0 0 0 0
  else
    let positive_count := (items.filter (fun i => i.ml_sentiment.label = "positive")).length
    let negative_count := (items.filter (fun i => i.ml_sentiment.label = "negative")).length
    let neutral_count := (items.filter (fun i => i.ml_sentiment.label = "neutral")).length
    let avg_sentiment := (items.map (fun i => i.news.sentiment_score)).sum / (items.length : ℚ)
    let avg_relevance := (items.map (fun i => i.news.relevance_score)).sum / (items.length : ℚ)
    mkSentimentStats items.length positive_count negative_count neutral_count
      (pyRound avg_sentiment 4) (pyRound avg_relevance 4)

theorem char_toNat_ofNat_valid (n : ℕ) (h : n < 55296) : (Char.ofNat n).toNat = n := by
  unfold Char.ofNat
  split
  · rfl
  · rename_i h2
    exact absurd (Or.inl h) h2

theorem char_toLower_toLower (c : Char) : c.toLower.toLower = c.toLower := by
  simp only [Char.toLower]
  by_cases h : c.toNat ≥ 65 ∧ c.toNat ≤ 90
  · rw [if_pos h]
    have hv : (Char.ofNat (c.toNat + 32)).toNat = c.toNat + 32 :=
      char_toNat_ofNat_valid _ (by omega)
    rw [if_neg (by rw [hv]; omega)]
  · rw [if_neg h, if_neg h]

theorem pyLower_pyLower (s : String) : pyLower (pyLower s) = pyLower s := by
  simp only [pyLower, List.map_map]
  refine congrArg String.mk ?_
  refine List.map_congr_left ?_
  intro c _
  exact char_toLower_toLower c

/-- C3: for every confidence score `s`, the derived confidence band (both in
`sentiment_analyzer.get_confidence_level` and in the pydantic validator
`models.SentimentResult.determine_confidence`, which agree) is high iff
`s > 0.8`, medium iff `0.6 < s ≤ 0.8`, and low iff `s ≤ 0.6`, with strict
comparisons at both boundaries: 0.80 is medium, 0.81 high, 0.60 low,
0.61 medium. -/
theorem c3_confidence_banding (s : ℚ) :
    (get_confidence_level s = .high ↔ 4/5 < s) ∧
    (get_confidence_level s = .medium ↔ 3/5 < s ∧ s ≤ 4/5) ∧
    (get_confidence_level s = .low ↔ s ≤ 3/5) ∧
    get_confidence_level s = determine_confidence s ∧
    get_confidence_level (80/100) = .medium ∧
    get_confidence_level (81/100) = .high ∧
    get_confidence_level (60/100) = .low ∧
    get_confidence_level (61/100) = .medium := by
  refine ⟨?_, ?_, ?_, rfl, by norm_num [get_confidence_level], by norm_num [get_confidence_level],
    by norm_num [get_confidence_level], by norm_num [get_confidence_level]⟩
  · unfold get_confidence_level
    split_ifs with h1 h2
    · exact iff_of_true rfl h1
    · exact iff_of_false (by decide) h1
    · exact iff_of_false (by decide) h1
  · unfold get_confidence_level
    split_ifs with h1 h2
    · exact iff_of_false (by decide) (fun hc => absurd h1 (not_lt.2 hc.2))
    · exact iff_of_true rfl ⟨h2, le_of_not_lt h1⟩
    · exact iff_of_false (by decide) (fun hc => absurd hc.1 h2)
  · unfold get_confidence_level
    split_ifs with h1 h2
    · exact iff_of_false (by decide) (not_le.2 (lt_trans (by norm_num) h1))
    · exact iff_of_false (by decide) (not_le.2 h2)
    · exact iff_of_true rfl (le_of_not_lt h2)

/-- C3 witness: the banding at the 0.81 boundary input. -/
theorem c3_witness : get_confidence_level (81/100) = .high :=
  (c3_confidence_banding (81/100)).1.mpr (by norm_num)

/-- C8: `normalize_label` always yields one of positive / negative /
neutral (unknown labels default to neutral and nothing errors), it is
idempotent, lowercasing the input first does not change the result
(case-insensitivity), and BULLISH / bullish both map to positive. -/
theorem c8_normalize_label (x : String) :
    (normalize_label x = "positive" ∨ normalize_label x = "negative" ∨
      normalize_label x = "neutral") ∧
    normalize_label (normalize_label x) = normalize_label x ∧
    normalize_label (pyLower x) = normalize_label x ∧
    (pyLower x ∉ ["positive", "bullish", "label_2", "negative", "bearish",
        "label_0", "neutral", "label_1"] → normalize_label x = "neutral") ∧
    normalize_label "BULLISH" = "positive" ∧
    normalize_label "bullish" = "positive" := by
  have hrange : normalize_label x = "positive" ∨ normalize_label x = "negative" ∨
      normalize_label x = "neutral" := by
    simp only [normalize_label]
    split_ifs <;> simp
  refine ⟨hrange, ?_, ?_, ?_, by decide, by decide⟩
  · rcases hrange with h | h | h <;> rw [h] <;> decide
  · unfold normalize_label
    rw [pyLower_pyLower]
  · intro hx
    simp only [normalize_label]
    split_ifs with h1 h2 h3 h4 h5 h6 h7 h8
    · exact absurd (by rw [h1]; simp) hx
    · exact absurd (by rw [h2]; simp) hx
    · exact absurd (by rw [h3]; simp) hx
    · exact absurd (by rw [h4]; simp) hx
    · exact absurd (by rw [h5]; simp) hx
    · exact absurd (by rw [h6]; simp) hx
    · exact absurd (by rw [h7]; simp) hx
    · exact absurd (by rw [h8]; simp) hx
    · rfl

/-- C8 witness: an unrecognized label normalizes to neutral. -/
theorem c8_witness : normalize_label "Somewhat-Bearish" = "neutral" :=
  (c8_normalize_label "Somewhat-Bearish").2.2.2.1 (by decide)

/-- C9: aggregating an empty item list yields total 0, zero label counts,
zero average sentiment and relevance, and an all-zero percentage
distribution, and (the distribution being computed by a total function
whose zero-total branch short-circuits) no division error can occur. -/
theorem c9_aggregate_empty :
    aggregate_stats [] =
      { total_news := 0
        positive_count := 0
        negative_count := 0
        neutral_count := 0
        avg_sentiment_score := 0
        avg_relevance_score := 0
        sentiment_distribution := ⟨0, 0, 0⟩ } := by
  decide

/-- C4 counterexample: the ticker "aapl" does not match the regex pattern
(it is lowercase), yet `validate_ticker` accepts it, because the source
applies the pattern to the uppercased form. The claim "for every ticker
string that does not match the pattern ... validate fails" is therefore
false at "aapl". -/
theorem c4_counterexample :
    reMatchTickerPattern "aapl" = false ∧
    validate_ticker defaultSettings "aapl" = .ok true := by
  constructor
  · decide
  · decide

/-- C4 (amended): for every ticker whose UPPERCASED form does not match the
1-to-5-uppercase-letters pattern or is not in the configured allow-list,
`validate_ticker` raises `ValueError` (InvalidTicker); and "AAPL" always
validates successfully under the default (AAPL-allow-listed) settings. -/
theorem c4_validate_ticker (s : Settings) (t : String)
    (h : reMatchTickerPattern (pyUpper t) = false ∨ pyUpper t ∉ s.ALLOWED_TICKERS) :
    (∃ msg, validate_ticker s t = .error (.valueError msg)) ∧
    validate_ticker defaultSettings "AAPL" = .ok true := by
  refine ⟨?_, by decide⟩
  unfold validate_ticker
  by_cases h1 : t = ""
  · rw [if_pos h1]
    exact ⟨_, rfl⟩
  · rw [if_neg h1]
    by_cases h2 : reMatchTickerPattern (pyUpper t) = true
    · rw [if_neg (by simp [h2])]
      by_cases h3 : pyUpper t ∈ s.ALLOWED_TICKERS
      · rcases h with h | h
        · rw [h] at h2
          simp at h2
        · exact absurd h3 h
      · rw [if_neg h3]
        exact ⟨_, rfl⟩
    · rw [if_pos h2]
      exact ⟨_, rfl⟩

/-- C4 witness: "MSFT" is not allow-listed by default, so validation fails;
and "AAPL" validates. -/
theorem c4_witness :
    (∃ msg, validate_ticker defaultSettings "MSFT" = .error (.valueError msg)) ∧
    validate_ticker defaultSettings "AAPL" = .ok true :=
  c4_validate_ticker defaultSettings "MSFT" (Or.inr (by decide))

def isOkE {ε α : Type} : Except ε α → Bool
  | .ok _ => true
  | .error _ => false

/-- Demo single-text classifier oracle used in concrete scenarios. -/
def demoClf : Clf := fun _ => .ok ⟨"positive", 9/10⟩

/-- Demo batch classifier oracle used in concrete scenarios. -/
def demoBatchClf : ClfBatch := fun texts => .ok (texts.map (fun _ => ⟨"neutral", 7/10⟩))

/-- C7 counterexample: the empty string trims to empty, yet passed as an
element of a batch, `batch_analyze_sentiment` does not fail with EmptyInput:
it submits the stripped element to the model and succeeds. -/
theorem c7_counterexample :
    pyStrip "" = "" ∧
    isOkE (batch_analyze_sentiment defaultSettings demoBatchClf [""]) = true := by
  exact ⟨rfl, rfl⟩

/-- C7 (amended): single-text `analyze_sentiment` fails with
`ValueError "Text cannot be empty"` (EmptyInput) exactly on input whose
trimmed form is empty, without invoking the model; on trimmed-non-empty
input it never raises EmptyInput (nor any other `ValueError`); and
`batch_analyze_sentiment` performs no per-element emptiness check: it never
raises EmptyInput for any list of texts, empty elements included. -/
theorem c7_empty_input (s : Settings) (clf : Clf) (clfB : ClfBatch)
    (texts : List String) (text : String) :
    (pyStrip text = "" →
      analyze_sentiment s clf text = ⟨.error (.valueError "Text cannot be empty"), 0⟩) ∧
    (pyStrip text ≠ "" →
      ∀ m, (analyze_sentiment s clf text).result ≠ .error (.valueError m)) ∧
    (∀ m, batch_analyze_sentiment s clfB texts ≠ .error (.valueError m)) := by
  refine ⟨?_, ?_, ?_⟩
  · intro h
    unfold analyze_sentiment
    rw [if_pos h]
  · intro h m
    unfold analyze_sentiment
    rw [if_neg h]
    rcases hcl : clf (truncateText s (pyStrip text)) with e | out <;> simp [hcl]
  · intro m
    unfold batch_analyze_sentiment
    split_ifs
    · simp
    · rcases hcl : clfB (texts.map (fun text => pyStrip (truncateText s text))) with e | raw <;>
        simp [hcl]

/-- C7 witness: a whitespace-only text fails with EmptyInput, a non-blank
text never yields EmptyInput, and no batch raises it. -/
theorem c7_witness :
    (pyStrip " " = "" →
      analyze_sentiment defaultSettings demoClf " " =
        ⟨.error (.valueError "Text cannot be empty"), 0⟩) ∧
    (pyStrip " " ≠ "" →
      ∀ m, (analyze_sentiment defaultSettings demoClf " ").result ≠ .error (.valueError m)) ∧
    (∀ m, batch_analyze_sentiment defaultSettings demoBatchClf [""] ≠ .error (.valueError m)) :=
  c7_empty_input defaultSettings demoClf demoBatchClf [""] " "

/-- `str.startswith` on the underlying character lists. -/
def strStartsWith (s p : String) : Bool := p.data.isPrefixOf s.data

theorem list_isPrefixOf_append (p t : List Char) : p.isPrefixOf (p ++ t) = true := by
  induction p with
  | nil => simp [List.isPrefixOf]
  | cons a p ih => simp [List.isPrefixOf, ih]

theorem strStartsWith_append (p m : String) : strStartsWith (p ++ m) p = true := by
  cases p with
  | mk pd =>
    cases m with
    | mk md => exact list_isPrefixOf_append pd md

/-- Network outcome delivering an API-reported hard error. -/
def apiErrorNet : NetOutcome :=
  .response 200 { errorMessage := some "Invalid API call." }

/-- Network outcome delivering the provider's rate-limit marker. -/
def rateLimitNet : NetOutcome :=
  .response 200 { note := some "Our standard API call frequency is 25 requests per day" }

/-- C2 counterexample: an API-reported error (ProviderError cause) and a
rate-limit note (RateLimited cause) are both surfaced by
`fetch_financial_news` as the same exception kind, `ValueError`; the caller
cannot distinguish them by error kind, only by message text. -/
theorem c2_counterexample :
    (fetch_financial_news defaultSettings "AAPL" none apiErrorNet 0 0 emptyCache).result =
      .error (.valueError "API Error: Invalid API call.") ∧
    (fetch_financial_news defaultSettings "AAPL" none rateLimitNet 0 0 emptyCache).result =
      .error (.valueError "Rate limit exceeded. Please try again later.") ∧
    PyErr.kind (.valueError "API Error: Invalid API call.") =
      PyErr.kind (.valueError "Rate limit exceeded. Please try again later.") := by
  exact ⟨rfl, rfl, rfl⟩

/-- C2 (amended): on a validated ticker and cache miss, the four
provider-layer failure causes surface as follows. TimedOut raises
`TimeoutError` and Unreachable raises `ConnectionError`, which are distinct
kinds (also distinct from `ValueError`); but ProviderError (non-2xx status
or API-reported error) and RateLimited both raise `ValueError` and are
distinguishable only by message: every ProviderError message starts with
"API Error: " while the RateLimited message is the fixed rate-limit string,
which does not. -/
theorem c2_error_kinds (s : Settings) (ticker : String) (mr : Option ℚ) (wall : ℚ)
    (ns : ℤ) (cs : CacheState)
    (hv : validate_ticker s ticker = .ok true)
    (hm : is_cache_valid s cs wall (get_cache_key ticker) = false) :
    (∀ m, (fetch_financial_news s ticker mr (.timeout m) wall ns cs).result =
      .error (.timeoutError "Request to Alpha Vantage API timed out")) ∧
    (∀ m, (fetch_financial_news s ticker mr (.connectionFailure m) wall ns cs).result =
      .error (.connectionError ("Failed to connect to Alpha Vantage API: " ++ m))) ∧
    (∀ status body, status ≠ 200 →
      (fetch_financial_news s ticker mr (.response status body) wall ns cs).result =
        .error (.valueError ("API Error: HTTP " ++ toString status))) ∧
    (∀ body m, body.errorMessage = some m →
      (fetch_financial_news s ticker mr (.response 200 body) wall ns cs).result =
        .error (.valueError ("API Error: " ++ m))) ∧
    (∀ body n, body.errorMessage = none → body.note = some n →
      (fetch_financial_news s ticker mr (.response 200 body) wall ns cs).result =
        .error (.valueError "Rate limit exceeded. Please try again later.")) ∧
    PyErrKind.timeoutErrorK ≠ PyErrKind.connectionErrorK ∧
    PyErrKind.timeoutErrorK ≠ PyErrKind.valueErrorK ∧
    PyErrKind.connectionErrorK ≠ PyErrKind.valueErrorK ∧
    (∀ m, strStartsWith ("API Error: " ++ m) "API Error: " = true) ∧
    (strStartsWith "Rate limit exceeded. Please try again later." "API Error: " = false) := by
  refine ⟨?_, ?_, ?_, ?_, ?_, by decide, by decide, by decide, ?_, by decide⟩
  · intro m
    simp [fetch_financial_news, fetch_from_provider, hv, hm]
  · intro m
    simp [fetch_financial_news, fetch_from_provider, hv, hm]
  · intro status body hs
    simp [fetch_financial_news, fetch_from_provider, hv, hm, hs]
  · intro body m hb
    simp [fetch_financial_news, fetch_from_provider, hv, hm, hb]
  · intro body n hb1 hb2
    simp [fetch_financial_news, fetch_from_provider, hv, hm, hb1, hb2]
  · intro m
    exact strStartsWith_append "API Error: " m

/-- C2 witness: a timeout on a validated, uncached ticker surfaces as
`TimeoutError`. -/
theorem c2_witness :
    (fetch_financial_news defaultSettings "AAPL" none (.timeout "deadline") 0 0
      emptyCache).result =
      .error (.timeoutError "Request to Alpha Vantage API timed out") :=
  (c2_error_kinds defaultSettings "AAPL" none 0 0 emptyCache (by decide) rfl).1 "deadline"

theorem processEntry_ticker (upperTicker : String) (minR : ℚ) (ns : ℤ)
    (e : FeedEntry) (i : NewsItemD)
    (h : processEntry upperTicker minR ns e = some i) : i.ticker = upperTicker := by
  unfold processEntry at h
  split at h
  · cases h
  · split at h
    · cases h
    · cases h
      rfl

/-- C5: on a validated ticker, a cache miss, and a successfully parsed
provider response (status 200, no error marker, no rate-limit note, a
parsed feed array), `fetch_financial_news` returns exactly the feed entries
retained by `processEntry` — those carrying a ticker-sentiment sub-record
matching the uppercased request ticker with relevance not below
`min_relevance` (default `MIN_RELEVANCE_SCORE`) — as a permutation sorted
by publication time descending; every returned item's ticker equals the
uppercased request ticker, and an empty feed yields `ok []`, not an
error. -/
theorem c5_fetch_filter (s : Settings) (ticker : String) (mr : Option ℚ) (wall : ℚ)
    (ns : ℤ) (cs : CacheState) (body : ApiBody) (entries : List FeedEntry)
    (hv : validate_ticker s ticker = .ok true)
    (hm : is_cache_valid s cs wall (get_cache_key ticker) = false)
    (hb1 : body.errorMessage = none) (hb2 : body.note = none)
    (hfeed : body.feed = some entries) :
    (fetch_financial_news s ticker mr (.response 200 body) wall ns cs).result =
      .ok (sortByKeyDesc (fun x => x.time_published)
        (entries.filterMap
          (processEntry (pyUpper ticker) (mr.getD s.MIN_RELEVANCE_SCORE) ns))) ∧
    (sortByKeyDesc (fun x => x.time_published)
      (entries.filterMap
        (processEntry (pyUpper ticker) (mr.getD s.MIN_RELEVANCE_SCORE) ns))).Perm
      (entries.filterMap
        (processEntry (pyUpper ticker) (mr.getD s.MIN_RELEVANCE_SCORE) ns)) ∧
    (sortByKeyDesc (fun x => x.time_published)
      (entries.filterMap
        (processEntry (pyUpper ticker) (mr.getD s.MIN_RELEVANCE_SCORE) ns))).Pairwise
      (fun a b => b.time_published ≤ a.time_published) ∧
    (∀ i ∈ sortByKeyDesc (fun x => x.time_published)
      (entries.filterMap
        (processEntry (pyUpper ticker) (mr.getD s.MIN_RELEVANCE_SCORE) ns)),
      i.ticker = pyUpper ticker) ∧
    (∀ e, (processEntry (pyUpper ticker) (mr.getD s.MIN_RELEVANCE_SCORE) ns e).isSome ↔
      ∃ ts, findTickerSentiment (pyUpper ticker) (e.ticker_sentiment.getD []) = some ts ∧
        mr.getD s.MIN_RELEVANCE_SCORE ≤ ts.relevance_score.getD 0) ∧
    (entries = [] →
      (fetch_financial_news s ticker mr (.response 200 body) wall ns cs).result = .ok []) := by
  have hres : (fetch_financial_news s ticker mr (.response 200 body) wall ns cs).result =
      .ok (sortByKeyDesc (fun x => x.time_published)
        (entries.filterMap
          (processEntry (pyUpper ticker) (mr.getD s.MIN_RELEVANCE_SCORE) ns))) := by
    by_cases he : entries = []
    · subst he
      simp [fetch_financial_news, fetch_from_provider, hv, hm, hb1, hb2, hfeed, sortByKeyDesc]
    · simp [fetch_financial_news, fetch_from_provider, hv, hm, hb1, hb2, hfeed, he]
  refine ⟨hres, sortByKeyDesc_perm _ _, sortByKeyDesc_pairwise _ _, ?_, ?_, ?_⟩
  · intro i hi
    have hi' : i ∈ entries.filterMap
        (processEntry (pyUpper ticker) (mr.getD s.MIN_RELEVANCE_SCORE) ns) :=
      (sortByKeyDesc_perm _ _).mem_iff.1 hi
    rcases List.mem_filterMap.1 hi' with ⟨e, _, he⟩
    exact processEntry_ticker _ _ _ _ _ he
  · intro e
    unfold processEntry
    rcases hf : findTickerSentiment (pyUpper ticker) (e.ticker_sentiment.getD []) with _ | ts
    · simp
    · dsimp only
      by_cases hr : ts.relevance_score.getD 0 < mr.getD s.MIN_RELEVANCE_SCORE
      · rw [if_pos hr]
        simp only [Option.isSome_none, Bool.false_eq_true, false_iff]
        rintro ⟨ts', hts', hle⟩
        cases hts'
        exact absurd hr (not_lt.2 hle)
      · rw [if_neg hr]
        simp only [Option.isSome_some, true_iff]
        exact ⟨ts, rfl, le_of_not_lt hr⟩
  · intro he
    subst he
    simpa [sortByKeyDesc] using hres

/-- The sample feed of the specification's relevance-filter property:
four entries about AAPL at relevances 0.95, 0.88, 0.45 and 0.10. -/
def demoEntries : List FeedEntry :=
  [ { title := some "A", time_published := some "20241020T150000",
      ticker_sentiment := some
        [{ ticker := some "AAPL", relevance_score := some (19/20),
           ticker_sentiment_score := some (12/25), ticker_sentiment_label := some "Bullish" }] },
    { title := some "B", time_published := some "20241020T120000",
      ticker_sentiment := some
        [{ ticker := some "AAPL", relevance_score := some (22/25),
           ticker_sentiment_score := some (-11/50),
           ticker_sentiment_label := some "Somewhat-Bearish" }] },
    { title := some "C", time_published := some "20241020T100000",
      ticker_sentiment := some
        [{ ticker := some "AAPL", relevance_score := some (9/20),
           ticker_sentiment_score := some (1/50), ticker_sentiment_label := some "Neutral" }] },
    { title := some "D", time_published := some "20241020T090000",
      ticker_sentiment := some
        [{ ticker := some "AAPL", relevance_score := some (1/10),
           ticker_sentiment_score := some 0, ticker_sentiment_label := some "Neutral" }] } ]

def demoBody : ApiBody := { feed := some demoEntries }

/-- C5 witness: the sample feed on a validated ticker and cold cache
returns exactly the retained entries, sorted. -/
theorem c5_witness :
    (fetch_financial_news defaultSettings "AAPL" none (.response 200 demoBody) 0 0
      emptyCache).result =
      .ok (sortByKeyDesc (fun x => x.time_published)
        (demoEntries.filterMap
          (processEntry (pyUpper "AAPL")
            ((none : Option ℚ).getD defaultSettings.MIN_RELEVANCE_SCORE) 0))) :=
  (c5_fetch_filter defaultSettings "AAPL" none 0 0 emptyCache demoBody demoEntries
    (by decide) rfl rfl rfl rfl).1

theorem fetch_from_provider_state_or_ok (ticker : String) (min_rel : ℚ) (net : NetOutcome)
    (wall : ℚ) (ns : ℤ) (cs : CacheState) :
    (fetch_from_provider ticker min_rel net wall ns cs).state = cs ∨
    ∃ l, (fetch_from_provider ticker min_rel net wall ns cs).result = .ok l := by
  unfold fetch_from_provider
  rcases net with ⟨status, body⟩ | m | m
  · dsimp only
    by_cases hs : status ≠ 200
    · left
      rw [if_pos hs]
    · rw [if_neg hs]
      rcases hb : body.errorMessage with _ | m'
      · dsimp only
        rcases hn : body.note with _ | n'
        · dsimp only
          by_cases hf : body.feed.getD [] = []
          · rw [if_pos hf]
            left
            rfl
          · rw [if_neg hf]
            right
            exact ⟨_, rfl⟩
        · left
          rfl
      · left
        rfl
  · left
    rfl
  · left
    rfl

theorem fetch_from_provider_empty_feed (ticker : String) (min_rel : ℚ) (body : ApiBody)
    (wall : ℚ) (ns : ℤ) (cs : CacheState)
    (hb1 : body.errorMessage = none) (hb2 : body.note = none)
    (hf : body.feed.getD [] = []) :
    fetch_from_provider ticker min_rel (.response 200 body) wall ns cs = ⟨.ok [], cs, 1⟩ := by
  simp [fetch_from_provider, hb1, hb2, hf]

theorem fetch_from_provider_calls (ticker : String) (min_rel : ℚ) (net : NetOutcome)
    (wall : ℚ) (ns : ℤ) (cs : CacheState) :
    (fetch_from_provider ticker min_rel net wall ns cs).providerCalls = 1 := by
  unfold fetch_from_provider
  rcases net with ⟨status, body⟩ | m | m
  · dsimp only
    by_cases hs : status ≠ 200
    · rw [if_pos hs]
    · rw [if_neg hs]
      rcases hb : body.errorMessage with _ | m'
      · dsimp only
        rcases hn : body.note with _ | n'
        · dsimp only
          by_cases hf : body.feed.getD [] = []
          · rw [if_pos hf]
          · rw [if_neg hf]
        · rfl
      · rfl
  · rfl
  · rfl

/-- C10: the module-level cache dicts are written only by a fetch that
completes successfully with a non-empty feed. Every invocation that raises
(validation, HTTP status, API error, rate limit, timeout, connection
failure, cache inconsistency) leaves both maps unchanged; an empty feed
from the provider yields `ok []` with both maps unchanged — so an empty
result is never cached — and any validated cache-miss invocation contacts
the provider (exactly one request), so the next call after an empty feed
within the TTL would contact the provider again. -/
theorem c10_cache_frame (s : Settings) (ticker : String) (mr : Option ℚ) (net : NetOutcome)
    (wall : ℚ) (ns : ℤ) (cs : CacheState) :
    (∀ e, (fetch_financial_news s ticker mr net wall ns cs).result = .error e →
      (fetch_financial_news s ticker mr net wall ns cs).state = cs) ∧
    (∀ body, net = .response 200 body → body.errorMessage = none → body.note = none →
      body.feed.getD [] = [] →
      (fetch_financial_news s ticker mr net wall ns cs).state = cs ∧
      (validate_ticker s ticker = .ok true →
        is_cache_valid s cs wall (get_cache_key ticker) = false →
        (fetch_financial_news s ticker mr net wall ns cs).result = .ok [])) ∧
    (validate_ticker s ticker = .ok true →
      is_cache_valid s cs wall (get_cache_key ticker) = false →
      (fetch_financial_news s ticker mr net wall ns cs).providerCalls = 1) := by
  refine ⟨?_, ?_, ?_⟩
  · intro e he
    rcases hval : validate_ticker s ticker with e0 | b
    · have h1 : fetch_financial_news s ticker mr net wall ns cs = ⟨.error e0, cs, 0⟩ := by
        unfold fetch_financial_news
        rw [hval]
      rw [h1]
    · by_cases hc : is_cache_valid s cs wall (get_cache_key ticker) = true
      · rcases hg : dictGet? (get_cache_key ticker) cs.cache with _ | items
        · have h1 : fetch_financial_news s ticker mr net wall ns cs =
              ⟨.error (.keyError (get_cache_key ticker)), cs, 0⟩ := by
            unfold fetch_financial_news
            rw [hval, if_pos hc, hg]
          rw [h1]
        · have h1 : fetch_financial_news s ticker mr net wall ns cs = ⟨.ok items, cs, 0⟩ := by
            unfold fetch_financial_news
            rw [hval, if_pos hc, hg]
          rw [h1]
      · have heq : fetch_financial_news s ticker mr net wall ns cs =
            fetch_from_provider ticker (mr.getD s.MIN_RELEVANCE_SCORE) net wall ns cs := by
          unfold fetch_financial_news
          rw [hval, if_neg hc]
        rw [heq] at he ⊢
        rcases fetch_from_provider_state_or_ok ticker (mr.getD s.MIN_RELEVANCE_SCORE)
            net wall ns cs with hst | ⟨l, hok⟩
        · exact hst
        · rw [he] at hok
          cases hok
  · intro body hnet hb1 hb2 hfe
    subst hnet
    rcases hval : validate_ticker s ticker with e0 | b
    · have h1 : fetch_financial_news s ticker mr (.response 200 body) wall ns cs =
          ⟨.error e0, cs, 0⟩ := by
        unfold fetch_financial_news
        rw [hval]
      rw [h1]
      exact ⟨rfl, fun hv _ => by cases hv⟩
    · by_cases hc : is_cache_valid s cs wall (get_cache_key ticker) = true
      · rcases hg : dictGet? (get_cache_key ticker) cs.cache with _ | items
        · have h1 : fetch_financial_news s ticker mr (.response 200 body) wall ns cs =
              ⟨.error (.keyError (get_cache_key ticker)), cs, 0⟩ := by
            unfold fetch_financial_news
            rw [hval, if_pos hc, hg]
          rw [h1]
          refine ⟨rfl, fun _ hm => ?_⟩
          rw [hm] at hc
          cases hc
        · have h1 : fetch_financial_news s ticker mr (.response 200 body) wall ns cs =
              ⟨.ok items, cs, 0⟩ := by
            unfold fetch_financial_news
            rw [hval, if_pos hc, hg]
          rw [h1]
          refine ⟨rfl, fun _ hm => ?_⟩
          rw [hm] at hc
          cases hc
      · have heq : fetch_financial_news s ticker mr (.response 200 body) wall ns cs =
            fetch_from_provider ticker (mr.getD s.MIN_RELEVANCE_SCORE)
              (.response 200 body) wall ns cs := by
          unfold fetch_financial_news
          rw [hval, if_neg hc]
        rw [heq,
          fetch_from_provider_empty_feed ticker (mr.getD s.MIN_RELEVANCE_SCORE) body
            wall ns cs hb1 hb2 hfe]
        exact ⟨rfl, fun _ _ => rfl⟩
  · intro hv hm
    have heq : fetch_financial_news s ticker mr net wall ns cs =
        fetch_from_provider ticker (mr.getD s.MIN_RELEVANCE_SCORE) net wall ns cs := by
      unfold fetch_financial_news
      rw [hv, if_neg (by simp [hm])]
    rw [heq]
    exact fetch_from_provider_calls _ _ _ _ _ _

/-- C10 witness: a rate-limited call and an empty-feed call both leave the
empty cache state unchanged; the empty-feed call returns `ok []`; and a
validated cache miss issues exactly one provider request. -/
theorem c10_witness :
    ((fetch_financial_news defaultSettings "AAPL" none rateLimitNet 0 0 emptyCache).result =
        .error (.valueError "Rate limit exceeded. Please try again later.") →
      (fetch_financial_news defaultSettings "AAPL" none rateLimitNet 0 0 emptyCache).state =
        emptyCache) ∧
    ((fetch_financial_news defaultSettings "AAPL" none
        (.response 200 { feed := some [] }) 0 0 emptyCache).state = emptyCache ∧
      (validate_ticker defaultSettings "AAPL" = .ok true →
        is_cache_valid defaultSettings emptyCache 0 (get_cache_key "AAPL") = false →
        (fetch_financial_news defaultSettings "AAPL" none
          (.response 200 { feed := some [] }) 0 0 emptyCache).result = .ok [])) ∧
    (fetch_financial_news defaultSettings "AAPL" none rateLimitNet 0 0
      emptyCache).providerCalls = 1 :=
  ⟨(c10_cache_frame defaultSettings "AAPL" none rateLimitNet 0 0 emptyCache).1
      (.valueError "Rate limit exceeded. Please try again later."),
   (c10_cache_frame defaultSettings "AAPL" none (.response 200 { feed := some [] }) 0 0
      emptyCache).2.1 { feed := some [] } rfl rfl rfl rfl,
   (c10_cache_frame defaultSettings "AAPL" none rateLimitNet 0 0 emptyCache).2.2
      (by decide) rfl⟩

theorem mem_dropWhile_of_not (p : Char → Bool) (l : List Char) (c : Char)
    (hc : c ∈ l) (hp : p c = false) : c ∈ l.dropWhile p := by
  rw [← List.takeWhile_append_dropWhile (p := p) (l := l)] at hc
  rcases List.mem_append.1 hc with h | h
  · have := List.mem_takeWhile_imp h
    rw [hp] at this
    cases this
  · exact h

theorem stripChars_ne_nil (l : List Char) (c : Char) (hc : c ∈ l)
    (hp : c.isWhitespace = false) : stripChars l ≠ [] := by
  unfold stripChars
  intro h
  have h1 : (l.dropWhile Char.isWhitespace).reverse.dropWhile Char.isWhitespace = [] :=
    List.reverse_eq_nil_iff.1 h
  have hc1 : c ∈ (l.dropWhile Char.isWhitespace).reverse :=
    List.mem_reverse.2 (mem_dropWhile_of_not _ _ _ hc hp)
  have hc2 : c ∈ (l.dropWhile Char.isWhitespace).reverse.dropWhile Char.isWhitespace :=
    mem_dropWhile_of_not _ _ _ hc1 hp
  rw [h1] at hc2
  cases hc2

/-- The "title. summary" text always contains the dot, so it never strips
to the empty string: the per-item classification in `get_news` is never
short-circuited by the EmptyInput check. -/
theorem pyStrip_title_summary_ne (a b : String) : pyStrip (a ++ ". " ++ b) ≠ "" := by
  have hc : '.' ∈ (a ++ ". " ++ b).data := by
    cases a with
    | mk la =>
      cases b with
      | mk lb =>
        show '.' ∈ (la ++ ['.', ' ']) ++ lb
        simp
  intro h
  refine stripChars_ne_nil (a ++ ". " ++ b).data '.' hc (by decide) ?_
  have hdata := congrArg String.data h
  simpa [pyStrip] using hdata

/-- Every item in the loop of `get_news` costs exactly one model
invocation, whether or not its classification and validation succeed. -/
theorem analyzeItemsLoop_calls (s : Settings) (clf : Clf) (items : List NewsItemD) :
    (analyzeItemsLoop s clf items).2 = items.length := by
  induction items with
  | nil => rfl
  | cons item rest ih =>
    have hne : pyStrip (item.title ++ ". " ++ item.summary) ≠ "" :=
      pyStrip_title_summary_ne item.title item.summary
    have hcalls :
        (analyze_sentiment s clf (item.title ++ ". " ++ item.summary)).modelCalls = 1 := by
      unfold analyze_sentiment
      rw [if_neg hne]
      rcases hcl : clf (truncateText s (pyStrip (item.title ++ ". " ++ item.summary)))
        with e | out <;> simp [hcl]
    unfold analyzeItemsLoop
    dsimp only
    rcases hres : (analyze_sentiment s clf (item.title ++ ". " ++ item.summary)).result
      with e | ml
    · dsimp only
      rw [hcalls, ih]
      simp only [List.length_cons]
      omega
    · dsimp only
      rw [hcalls, ih]
      cases mkAnalyzedItem item ml (item.title ++ ". " ++ item.summary) <;>
        · dsimp only
          simp only [List.length_cons]
          omega

/-- The `cache_hit` flag of a successful news response, `none` on error. -/
def respCacheHit : Except HTTPException NewsFeedResponseD → Option Bool
  | .ok r => some r.cache_hit
  | .error _ => none

/-- C1 (amended): for every ticker with a live (non-expired) cache entry,
`get_news` does not contact the provider and leaves the cache unchanged,
but it re-invokes the sentiment classifier once per cached item (the cache
stores raw, unclassified items) and the response reports `cache_hit =
false` (the source hardcodes it); in particular, across two immediate calls
the provider is invoked exactly once while the classifier runs on both. -/
theorem c1_cache_hit (s : Settings) (ticker : String) (net : NetOutcome) (clf : Clf)
    (wall : ℚ) (ns : ℤ) (cs : CacheState) (t0 : ℚ) (items : List NewsItemD)
    (hv : validate_ticker s ticker = .ok true)
    (ht : dictGet? (get_cache_key ticker) cs.timestamps = some t0)
    (hlive : wall - t0 < s.CACHE_TTL)
    (hcc : dictGet? (get_cache_key ticker) cs.cache = some items) :
    respCacheHit (get_news s ticker net clf wall ns cs).result = some false ∧
    (get_news s ticker net clf wall ns cs).state = cs ∧
    (get_news s ticker net clf wall ns cs).counts.provider = 0 ∧
    (get_news s ticker net clf wall ns cs).counts.classifier = items.length := by
  have hvalid : is_cache_valid s cs wall (get_cache_key ticker) = true := by
    unfold is_cache_valid
    rw [ht]
    exact decide_eq_true hlive
  have hfetch : fetch_financial_news s ticker none net wall ns cs = ⟨.ok items, cs, 0⟩ := by
    unfold fetch_financial_news
    rw [hv, if_pos hvalid, hcc]
  unfold get_news
  rw [hfetch]
  dsimp only [respCacheHit]
  exact ⟨rfl, rfl, rfl, analyzeItemsLoop_calls s clf items⟩

/-- A provider outcome with a non-empty feed consisting of one raw entry
with no fields (enough for the fetch to cache a result under its key). -/
def goodNet : NetOutcome := .response 200 { feed := some [{}] }

/-- A raw news item as cached by a previous successful fetch. -/
def demoItem : NewsItemD :=
  { title := "T", summary := "S", url := "", source := "Reuters",
    time_published := 20241020150000, ticker := "AAPL", relevance_score := 19/20,
    sentiment_score := 12/25, sentiment_label := "Bullish" }

/-- A cache state holding a live entry for AAPL inserted at time 0. -/
def liveCache : CacheState :=
  { cache := [("news_AAPL", [demoItem])], timestamps := [("news_AAPL", 0)] }

/-- C1 counterexample: with a live cached entry for AAPL, `get_news` at the
same instant does succeed without the provider (the network outcome here is
a timeout, and no timeout error surfaces because no request is made), but
contrary to the claim it reports `cache_hit = false` and invokes the
classifier once for the single cached item instead of zero times; and in
the two-immediate-calls scenario the provider is invoked exactly once
(first call 1, second call 0) yet the second call reports `cache_hit =
false`, not `true`. -/
theorem c1_counterexample :
    respCacheHit (get_news defaultSettings "AAPL" (.timeout "boom") demoClf 0 0
      liveCache).result = some false ∧
    (get_news defaultSettings "AAPL" (.timeout "boom") demoClf 0 0
      liveCache).counts.provider = 0 ∧
    (get_news defaultSettings "AAPL" (.timeout "boom") demoClf 0 0
      liveCache).counts.classifier = 1 ∧
    (get_news defaultSettings "AAPL" goodNet demoClf 0 0 emptyCache).counts.provider = 1 ∧
    (get_news defaultSettings "AAPL" goodNet demoClf 0 0
      (get_news defaultSettings "AAPL" goodNet demoClf 0 0
        emptyCache).state).counts.provider = 0 ∧
    respCacheHit (get_news defaultSettings "AAPL" goodNet demoClf 0 0
      (get_news defaultSettings "AAPL" goodNet demoClf 0 0
        emptyCache).state).result = some false := by
  have hkey : get_cache_key "AAPL" = "news_AAPL" := by decide
  have hvalid : is_cache_valid defaultSettings liveCache 0 (get_cache_key "AAPL") = true := by
    unfold is_cache_valid
    rw [hkey, show dictGet? "news_AAPL" liveCache.timestamps = some 0 from rfl]
    norm_num [defaultSettings]
  have hfetch : fetch_financial_news defaultSettings "AAPL" none (.timeout "boom") 0 0
      liveCache = ⟨.ok [demoItem], liveCache, 0⟩ := by
    unfold fetch_financial_news
    rw [show validate_ticker defaultSettings "AAPL" = .ok true from by decide, if_pos hvalid]
    rfl
  have hfc : (get_news defaultSettings "AAPL" goodNet demoClf 0 0 emptyCache).state =
      { cache := [("news_AAPL", [])], timestamps := [("news_AAPL", (0 : ℚ))] } := rfl
  have hvalid2 : is_cache_valid defaultSettings
      { cache := [("news_AAPL", [])], timestamps := [("news_AAPL", (0 : ℚ))] } 0
      (get_cache_key "AAPL") = true := by
    unfold is_cache_valid
    rw [hkey]
    rw [show dictGet? "news_AAPL"
      ({ cache := [("news_AAPL", ([] : List NewsItemD))],
         timestamps := [("news_AAPL", (0 : ℚ))] } : CacheState).timestamps = some 0 from rfl]
    norm_num [defaultSettings]
  have hfetch2 : fetch_financial_news defaultSettings "AAPL" none goodNet 0 0
      { cache := [("news_AAPL", [])], timestamps := [("news_AAPL", (0 : ℚ))] } =
      ⟨.ok [], { cache := [("news_AAPL", [])], timestamps := [("news_AAPL", (0 : ℚ))] }, 0⟩ := by
    unfold fetch_financial_news
    rw [show validate_ticker defaultSettings "AAPL" = .ok true from by decide, if_pos hvalid2]
    rfl
  refine ⟨?_, ?_, ?_, rfl, ?_, ?_⟩
  · unfold get_news
    rw [hfetch]
    rfl
  · unfold get_news
    rw [hfetch]
  · unfold get_news
    rw [hfetch]
    exact analyzeItemsLoop_calls defaultSettings demoClf [demoItem]
  · rw [hfc]
    unfold get_news
    rw [hfetch2]
  · rw [hfc]
    unfold get_news
    rw [hfetch2]
    rfl

/-- C1 witness: the amended cache-hit behavior at the concrete live-cache
state. -/
theorem c1_witness :
    respCacheHit (get_news defaultSettings "AAPL" (.connectionFailure "down") demoClf 0 0
      liveCache).result = some false ∧
    (get_news defaultSettings "AAPL" (.connectionFailure "down") demoClf 0 0
      liveCache).state = liveCache ∧
    (get_news defaultSettings "AAPL" (.connectionFailure "down") demoClf 0 0
      liveCache).counts.provider = 0 ∧
    (get_news defaultSettings "AAPL" (.connectionFailure "down") demoClf 0 0
      liveCache).counts.classifier = [demoItem].length :=
  c1_cache_hit defaultSettings "AAPL" (.connectionFailure "down") demoClf 0 0 liveCache 0
    [demoItem] (by decide) rfl (by norm_num [defaultSettings]) rfl

theorem dictInsert_length_of_fresh {α : Type} (k : String) (v : α)
    (l : List (String × α)) (h : dictGet? k l = none) :
    (dictInsert k v l).length = l.length + 1 := by
  induction l with
  | nil => rfl
  | cons p rest ih =>
    obtain ⟨k', v'⟩ := p
    unfold dictGet? at h
    unfold dictInsert
    by_cases hk : k' = k
    · rw [if_pos hk] at h
      cases h
    · rw [if_neg hk] at h
      rw [if_neg hk]
      simp [ih h]

theorem dictGet_insert_ne {α : Type} (k k' : String) (v : α) (l : List (String × α))
    (hne : k' ≠ k) : dictGet? k' (dictInsert k v l) = dictGet? k' l := by
  induction l with
  | nil =>
    unfold dictInsert dictGet?
    rw [if_neg (fun hc => hne hc.symm)]
    rfl
  | cons p rest ih =>
    obtain ⟨k0, v0⟩ := p
    unfold dictInsert
    by_cases hk : k0 = k
    · rw [if_pos hk]
      unfold dictGet?
      have hne0 : ¬ k0 = k' := fun hc => hne (hc.symm.trans hk)
      rw [if_neg hne0, if_neg hne0]
    · rw [if_neg hk]
      unfold dictGet?
      by_cases hk' : k0 = k'
      · rw [if_pos hk', if_pos hk']
      · rw [if_neg hk', if_neg hk']
        exact ih

/-- A sequence of `fetch_financial_news` calls, one per ticker, each
against `goodNet`, threading the module-level cache state through. -/
def runSeq (s : Settings) (wall : ℚ) (ns : ℤ) : List String → CacheState → CacheState
  | [], cs => cs
  | t :: rest, cs =>
    runSeq s wall ns rest (fetch_financial_news s t none goodNet wall ns cs).state

theorem fetch_goodNet_state (s : Settings) (t : String) (wall : ℚ) (ns : ℤ) (cs : CacheState)
    (hv : validate_ticker s t = .ok true)
    (hcold : dictGet? (get_cache_key t) cs.timestamps = none) :
    (fetch_financial_news s t none goodNet wall ns cs).state =
      { cache := dictInsert (get_cache_key t)
          (sortByKeyDesc (fun x => x.time_published)
            ([({} : FeedEntry)].filterMap
              (processEntry (pyUpper t) s.MIN_RELEVANCE_SCORE ns))) cs.cache
        timestamps := dictInsert (get_cache_key t) wall cs.timestamps } := by
  have hmiss : is_cache_valid s cs wall (get_cache_key t) = false := by
    unfold is_cache_valid
    rw [hcold]
  unfold fetch_financial_news
  rw [hv, if_neg (by simp [hmiss])]
  unfold fetch_from_provider goodNet
  dsimp only
  rw [if_neg (by norm_num)]
  rw [if_neg (by decide : ¬((({ feed := some [{}] } : ApiBody)).feed.getD [] = []))]
  dsimp only [Option.getD]

/-- No eviction exists in the source: a run of validated, cold-cache
fetches over pairwise-distinct keys grows the cache by one entry per
ticker, without bound. -/
theorem runSeq_cache_length (s : Settings) (wall : ℚ) (ns : ℤ) (ts : List String) :
    ∀ cs : CacheState,
    (∀ t ∈ ts, validate_ticker s t = .ok true) →
    (∀ t ∈ ts, dictGet? (get_cache_key t) cs.timestamps = none) →
    (∀ t ∈ ts, dictGet? (get_cache_key t) cs.cache = none) →
    (ts.map get_cache_key).Nodup →
    (runSeq s wall ns ts cs).cache.length = cs.cache.length + ts.length := by
  induction ts with
  | nil =>
    intro cs _ _ _ _
    rfl
  | cons t rest ih =>
    intro cs hval hcold1 hcold2 hnodup
    rw [List.map_cons] at hnodup
    have hnd := List.nodup_cons.1 hnodup
    have hne : ∀ t' ∈ rest, get_cache_key t' ≠ get_cache_key t := by
      intro t' ht' hc
      exact hnd.1 (hc ▸ List.mem_map_of_mem get_cache_key ht')
    have hst := fetch_goodNet_state s t wall ns cs (hval t (List.mem_cons_self t rest))
      (hcold1 t (List.mem_cons_self t rest))
    unfold runSeq
    rw [hst]
    rw [ih _ (fun t' ht' => hval t' (List.mem_cons_of_mem t ht'))
      (fun t' ht' => by
        dsimp only
        rw [dictGet_insert_ne _ _ _ _ (hne t' ht')]
        exact hcold1 t' (List.mem_cons_of_mem t ht'))
      (fun t' ht' => by
        dsimp only
        rw [dictGet_insert_ne _ _ _ _ (hne t' ht')]
        exact hcold2 t' (List.mem_cons_of_mem t ht'))
      hnd.2]
    dsimp only
    rw [dictInsert_length_of_fresh _ _ _ (hcold2 t (List.mem_cons_self t rest))]
    simp only [List.length_cons]
    omega

/-- A two-uppercase-letter ticker name for index `i` (0 to 675). -/
def tickerName (i : ℕ) : String := ⟨[Char.ofNat (65 + i / 26), Char.ofNat (65 + i % 26)]⟩

/-- 101 pairwise-distinct allow-listable tickers: AA, AB, ..., DW. -/
def tickers101 : List String := (List.range 101).map tickerName

/-- The default configuration with the allow-list widened to 101 tickers;
every other constant, `MAX_CACHE_SIZE = 100` included, is unchanged. -/
def settings101 : Settings := { ALLOWED_TICKERS := tickers101 }

set_option maxRecDepth 8000 in
/-- C6 (code bug, flagged by the specification itself): the source declares
`MAX_CACHE_SIZE = 100` but never enforces it and never evicts. With an
allow-list of 101 tickers, 101 successful fetches leave 101 entries in the
response cache, exceeding the configured maximum. -/
theorem c6_cache_exceeds_bound :
    defaultSettings.MAX_CACHE_SIZE = 100 ∧
    settings101.MAX_CACHE_SIZE = 100 ∧
    (runSeq settings101 0 0 tickers101 emptyCache).cache.length = 101 ∧
    settings101.MAX_CACHE_SIZE <
      (runSeq settings101 0 0 tickers101 emptyCache).cache.length := by
  have hlen : (runSeq settings101 0 0 tickers101 emptyCache).cache.length = 101 := by
    have h := runSeq_cache_length settings101 0 0 tickers101 emptyCache
      (by decide)
      (fun t _ => rfl)
      (fun t _ => rfl)
      (by decide)
    simpa using h
  exact ⟨rfl, rfl, hlen, by rw [hlen]; decide⟩
